import Mathlib

/-!
Verification development for the iFlytek (讯飞) long-form speech transcription
client in `Ifasr_new.py`.  The core client logic — request signing
(`_generate_signa` / `update_timestamp`), upload response handling
(`upload_file`, lines 144–162), the result-polling loop
(`get_transcription_result`, lines 179–249) and transcript extraction
(`extract_transcript_text`, lines 299–334) — is embedded shallowly below.

Modelling conventions:
* Parsed JSON documents are values of the inductive type `JValue`
  (numbers restricted to integers, which covers every field the client
  inspects: application codes and order statuses).
* Python exceptions are modelled with `Except PyErr`; a `try/except` block
  becomes a `match` on the `Except` value.
* The network is modelled as an oracle `Nat → HttpResp` giving the response
  to the n-th HTTP request issued, where a response is an HTTP status code
  plus the outcome of `response.json()` (either a parsed value or a
  JSON-decode failure).
* The cryptographic primitives (MD5 hex digest, HMAC-SHA1, Base64) and the
  JSON text parser from the Python standard library are abstracted as
  function parameters; the client's own logic is modelled concretely.
-/

namespace Ifasr

/-- A parsed JSON value, as produced by `json.loads` / `response.json()`.
Numbers are modelled as integers (all fields inspected by the client —
`code`, `status` — are integral). -/
inductive JValue where
  | jnull : JValue
  | jbool (b : Bool) : JValue
  | jnum (n : Int) : JValue
  | jstr (s : String) : JValue
  | jarr (elems : List JValue) : JValue
  | jobj (fields : List (String × JValue)) : JValue

/-- A Python exception raised during response processing. -/
inductive PyErr where
  | keyError (k : String) : PyErr
  | typeError : PyErr
  | attrError : PyErr
  | jsonError : PyErr
  | exnMsg (s : String) : PyErr
deriving DecidableEq, Repr

/-- First value bound to key `k` in an object's field list (Python `dict`
keys are unique, so first-match lookup coincides with dict lookup). -/
def jlookup : List (String × JValue) → String → Option JValue
  | [], _ => none
  | (k, v) :: rest, key => if k = key then some v else jlookup rest key

/-- Python subscript `v[k]` with a string key: dictionary lookup, raising
`KeyError` when absent and `TypeError` on any non-dict value. -/
def pyIndex (v : JValue) (k : String) : Except PyErr JValue :=
  match v with
  | .jobj kvs =>
    match jlookup kvs k with
    | some x => .ok x
    | none => .error (.keyError k)
  | _ => .error .typeError

/-- Python `v.get(k)` (single-argument `dict.get`): `none` when the key is
absent; `AttributeError` on non-dict values. -/
def pyGetOpt (v : JValue) (k : String) : Except PyErr (Option JValue) :=
  match v with
  | .jobj kvs => .ok (jlookup kvs k)
  | _ => .error .attrError

/-- Python `v.get(k, d)` (`dict.get` with default). -/
def pyGetD (v : JValue) (k : String) (d : JValue) : Except PyErr JValue :=
  match v with
  | .jobj kvs => .ok ((jlookup kvs k).getD d)
  | _ => .error .attrError

/-- Python numeric equality `v == n` between a JSON value and an integer
literal: numbers compare numerically and booleans compare as 0/1
(Python's `bool` is an `int` subtype); every other value is unequal. -/
def pyEqNum (v : JValue) (n : Int) : Bool :=
  match v with
  | .jnum m => m = n
  | .jbool b => (if b then (1 : Int) else 0) = n
  | _ => false

/-- Whether a `needle` character list occurs contiguously inside `hay`. -/
def charListPrefixEq : List Char → List Char → Bool
  | [], _ => true
  | _ :: _, [] => false
  | a :: as, b :: bs => a = b && charListPrefixEq as bs

/-- Substring occurrence check on character lists. -/
def charListContains (needle : List Char) : List Char → Bool
  | [] => charListPrefixEq needle []
  | c :: cs => charListPrefixEq needle (c :: cs) || charListContains needle cs

/-- Python membership `k in v` for a string `k`: key membership on dicts,
element membership on lists, substring test on strings, `TypeError`
otherwise. -/
def pyIn (k : String) (v : JValue) : Except PyErr Bool :=
  match v with
  | .jobj kvs => .ok (jlookup kvs k).isSome
  | .jarr xs => .ok (xs.any fun x => match x with | .jstr s => s = k | _ => false)
  | .jstr s => .ok (charListContains k.data s.data)
  | _ => .error .typeError

/-- Python iteration `for x in v`: list elements, string characters, or
dict keys; `TypeError` on non-iterables. -/
def pyIter (v : JValue) : Except PyErr (List JValue) :=
  match v with
  | .jarr xs => .ok xs
  | .jstr s => .ok (s.data.map fun c => JValue.jstr (String.singleton c))
  | .jobj kvs => .ok (kvs.map fun p => JValue.jstr p.1)
  | _ => .error .typeError

/-- `ERROR_CODES`, the fixed code → description table at lines 31–49 of
`Ifasr_new.py`. -/
def ERROR_CODES : List (Int × String) :=
  [ (0, "成功")
  , (10005, "参数无效")
  , (10006, "无效的签名")
  , (10007, "签名过期")
  , (10008, "请求太频繁")
  , (10009, "余额不足")
  , (10010, "无效的订单ID")
  , (10011, "无效的音频文件")
  , (10012, "音频时长超过限制")
  , (10019, "并发超过限制")
  , (10029, "订单不存在")
  , (10101, "内部错误")
  , (10102, "转写失败")
  , (10103, "转写超时")
  , (10163, "输入参数有误")
  , (10205, "无效的appid")
  , (10800, "无效的音频格式") ]

/-- First description bound to an integer code in an `(Int × String)`
table. -/
def intLookup : List (Int × String) → Int → Option String
  | [], _ => none
  | (k, v) :: rest, key => if k = key then some v else intLookup rest key

/-- `ERROR_CODES.get(code, "未知错误")` for an integer code (lines 157 and
216 of the source): table entry when the code is mapped, the generic
unknown-error description otherwise. -/
def errorCodeLookup (n : Int) : String :=
  (intLookup ERROR_CODES n).getD "未知错误"

/-- `ERROR_CODES.get(c, "未知错误")` for an arbitrary JSON value `c`
standing for `result['code']`: integers look up the table, booleans hash
like 0/1 (Python `bool` is an `int`), other hashable values miss the
table, and unhashable values (lists, dicts) raise `TypeError`. -/
def errorCodeMsg (c : JValue) : Except PyErr String :=
  match c with
  | .jnum n => .ok (errorCodeLookup n)
  | .jbool b => .ok (errorCodeLookup (if b then 1 else 0))
  | .jstr _ => .ok "未知错误"
  | .jnull => .ok "未知错误"
  | .jarr _ => .error .typeError
  | .jobj _ => .error .typeError

/-! ### Signature generation (`_generate_signa`, `update_timestamp`) -/

/-- UTF-8 encoding of a string, modelling Python's `str.encode('utf-8')`. -/
def strBytes (s : String) : List UInt8 :=
  s.toUTF8.toList

/-- The cryptographic / encoding primitives from the Python standard
library used by `_generate_signa`, abstracted as function parameters:
`md5Hex b` is `hashlib.md5(b).hexdigest()`, `hmacSha1 key msg` is
`hmac.new(key, msg, hashlib.sha1).digest()`, and `b64 b` is
`base64.b64encode(b).decode('utf-8')`. -/
structure HashPrims where
  md5Hex : List UInt8 → String
  hmacSha1 : List UInt8 → List UInt8 → List UInt8
  b64 : List UInt8 → String

/-- `LFASRClient._generate_signa` (lines 77–94): MD5-hex the UTF-8 bytes of
`appid + ts`, HMAC-SHA1 that hex string (UTF-8 encoded) under the UTF-8
bytes of `secret_key`, and Base64-encode the digest. -/
def generate_signa (p : HashPrims) (appid secret_key ts : String) : String :=
  let data := strBytes (appid ++ ts)
  let md5_value := p.md5Hex data
  let signa := p.hmacSha1 (strBytes secret_key) (strBytes md5_value)
  p.b64 signa

/-- The spec's description of the signing algorithm, transcribed from its
words: "compute `md5Hex = MD5(appId + timestamp)`; compute
`hmac = HMAC-SHA1(key=secretKey, message=md5Hex)`; return `base64(hmac)`"
(spec §4.1). -/
def signSpec (p : HashPrims) (appId secretKey timestamp : String) : String :=
  let md5HexValue := p.md5Hex (strBytes (appId ++ timestamp))
  let hmacValue := p.hmacSha1 (strBytes secretKey) (strBytes md5HexValue)
  p.b64 hmacValue

/-- The client's mutable `(self.ts, self.signa)` pair. -/
structure SignState where
  ts : String
  signa : String
deriving DecidableEq, Repr

/-- `LFASRClient.update_timestamp` (lines 72–75): sample the clock into
`self.ts` and recompute `self.signa`.  The sampled wall-clock string
`str(int(time.time()))` is passed in as `now`. -/
def update_timestamp (p : HashPrims) (appid secret_key now : String) : SignState :=
  { ts := now, signa := generate_signa p appid secret_key now }

/-! ### Duration estimate (`_estimate_duration`) -/

/-- The integer duration computed by `_estimate_duration` (line 168):
`int(file_size / 32000)`, i.e. the file size divided by 32000 and
truncated (division modelled exactly; truncation toward zero of a
non-negative quotient is the floor). -/
def estimateDurationVal (file_size : Nat) : Nat :=
  file_size / 32000

/-- `LFASRClient._estimate_duration` (lines 164–170) as a function of the
file's size in bytes: the truncated quotient rendered with `str(...)`. -/
def estimate_duration (file_size : Nat) : String :=
  toString (estimateDurationVal file_size)

/-! ### Upload response handling (`upload_file`, lines 144–162) -/

/-- Outcome of `upload_file` after the HTTP response has arrived: the
normal return or one of the raised exceptions, by source line:
* `ok result` — `return result` (line 162);
* `transportErr s` — `raise Exception(f"上传失败 HTTP {s}")` (line 147);
* `malformedResp` — the re-raised `json.JSONDecodeError` (line 153);
* `apiErr code msg` — `raise Exception(f"API错误: {msg} (code: {code})")`
  (line 159);
* `raised e` — any other escaping exception (e.g. `KeyError` from
  `result['code']` at line 157 or `result['content']['orderId']` at
  line 161). -/
inductive UploadOutcome where
  | ok (result : JValue) : UploadOutcome
  | transportErr (status : Nat) : UploadOutcome
  | malformedResp : UploadOutcome
  | apiErr (code : JValue) (msg : String) : UploadOutcome
  | raised (e : PyErr) : UploadOutcome

/-- Outcome of `response.json()`: a parsed document, or a raised
`json.JSONDecodeError` for an unparseable body. -/
inductive RespBody where
  | malformed : RespBody
  | parsed (v : JValue) : RespBody

/-- An HTTP response as observed by the client: the status code and the
result of parsing the body. -/
structure HttpResp where
  status_code : Nat
  body : RespBody

/-- The response-handling portion of `LFASRClient.upload_file`
(lines 144–162), as a function of the received HTTP response.  The file
checks, parameter building and the network send (lines 103–142) happen
before this point and only determine which response arrives; they are
abstracted into the `HttpResp` input. -/
def upload_file (r : HttpResp) : UploadOutcome :=
  if r.status_code ≠ 200 then
    .transportErr r.status_code
  else
    match r.body with
    | .malformed => .malformedResp
    | .parsed result =>
      match pyGetOpt result "code" with
      | .error e => .raised e
      | .ok copt =>
        if (match copt with | some c => pyEqNum c 0 | none => false) then
          match (do
              let ct ← pyIndex result "content"
              pyIndex ct "orderId" : Except PyErr JValue) with
          | .error e => .raised e
          | .ok _ => .ok result
        else
          match copt with
          | none => .raised (.keyError "code")
          | some cv =>
            match errorCodeMsg cv with
            | .ok msg => .apiErr cv msg
            | .error e => .raised e

/-! ### The polling loop (`get_transcription_result`, lines 172–249) -/

/-- The query parameters built once at lines 184–190 and baked into the
request URL at line 195. -/
structure PollQuery where
  appId : String
  signa : String
  ts : String
  orderId : String
  resultType : String
deriving DecidableEq, Repr

/-- How one execution of the `try` body (lines 202–241) ends:
* `ret v` — `return result` at line 230 (status 4);
* `noCount` — `continue` without touching `attempts` (statuses 0, 1, 3,
  lines 231–233);
* `count` — an explicit `attempts += 1; continue` branch (non-200 at
  lines 206–210, non-zero code at lines 215–220, unknown status at
  lines 237–241);
* `raised e` — an exception escapes the body and reaches the blanket
  `except Exception` handler at line 243 (which also does `attempts += 1`).
  This includes the `raise Exception("转写失败")` for status 5 at
  line 236, `json.JSONDecodeError` from `response.json()`, and
  `KeyError`/`TypeError`/`AttributeError` from field accesses. -/
inductive TryOutcome where
  | ret (v : JValue) : TryOutcome
  | noCount : TryOutcome
  | count : TryOutcome
  | raised (e : PyErr) : TryOutcome

/-- `result['content']['orderInfo']['status']` (line 223). -/
def statusChain (result : JValue) : Except PyErr JValue := do
  let c ← pyIndex result "content"
  let oi ← pyIndex c "orderInfo"
  pyIndex oi "status"

/-- One execution of the polling loop's `try` body (lines 202–241) on the
response `r` delivered for this iteration's `requests.get(url)`. -/
def pollTryBody (r : HttpResp) : TryOutcome :=
  if r.status_code ≠ 200 then .count
  else
    match r.body with
    | .malformed => .raised .jsonError
    | .parsed result =>
      match pyGetOpt result "code" with
      | .error e => .raised e
      | .ok copt =>
        if (match copt with | some c => pyEqNum c 0 | none => false) then
          match statusChain result with
          | .error e => .raised e
          | .ok status =>
            if pyEqNum status 4 then .ret result
            else if pyEqNum status 0 || pyEqNum status 1 || pyEqNum status 3 then .noCount
            else if pyEqNum status 5 then .raised (.exnMsg "转写失败")
            else .count
        else
          match copt with
          | none => .raised (.keyError "code")
          | some cv =>
            match errorCodeMsg cv with
            | .ok _ => .count
            | .error e => .raised e

/-- How `get_transcription_result` terminates: the `return result` at
line 230, or the `raise TimeoutError("获取转写结果超时")` at line 249
after the `while attempts < self.max_retry` loop exits. -/
inductive PollResult where
  | ok (result : JValue) : PollResult
  | timeoutErr : PollResult

/-- The `while attempts < self.max_retry` loop (lines 201–247), run
against the response oracle `resp` (the n-th `requests.get` receives
`resp n`).  `params` is the fixed query built before the loop; `issued`
accumulates, in order, the parameters carried by each request issued
(one per iteration, always from the same pre-built URL).  `fuel` bounds
the number of iterations modelled — the source loop itself is unbounded
for non-terminal statuses (spec §9); `none` means the fuel ran out before
the loop terminated. -/
def pollLoop (params : PollQuery) (resp : Nat → HttpResp) (max_retry : Nat) :
    Nat → Nat → List PollQuery → Option (PollResult × Nat × List PollQuery)
  | 0, _, _ => none
  | fuel + 1, attempts, issued =>
    if attempts < max_retry then
      match pollTryBody (resp issued.length) with
      | .ret v => some (.ok v, attempts, issued ++ [params])
      | .noCount => pollLoop params resp max_retry fuel attempts (issued ++ [params])
      | .count => pollLoop params resp max_retry fuel (attempts + 1) (issued ++ [params])
      | .raised _ => pollLoop params resp max_retry fuel (attempts + 1) (issued ++ [params])
    else
      some (.timeoutErr, attempts, issued)

/-- `LFASRClient.get_transcription_result` (lines 172–249): one
`update_timestamp()` call (line 179, sampling the clock as `now`), one
construction of the query parameters and URL (lines 184–195), then the
polling loop.  Returns the terminal outcome, the final value of
`attempts`, and the parameters of every request issued. -/
def get_transcription_result (p : HashPrims)
    (appid secret_key order_id result_type now : String)
    (resp : Nat → HttpResp) (max_retry fuel : Nat) :
    Option (PollResult × Nat × List PollQuery) :=
  let st := update_timestamp p appid secret_key now
  let params : PollQuery :=
    { appId := appid, signa := st.signa, ts := st.ts
    , orderId := order_id, resultType := result_type }
  pollLoop params resp max_retry fuel 0 []

/-! ### Transcript extraction (`extract_transcript_text`, lines 299–334) -/

/-- `json.loads(x)`: parse when `x` is a string (decode failure raises
`json.JSONDecodeError`); any non-string input raises `TypeError`.  The
standard library's JSON text parser is abstracted as the `parse`
parameter. -/
def pyLoads (parse : String → Option JValue) : JValue → Except PyErr JValue
  | .jstr s =>
    match parse s with
    | some v => .ok v
    | none => .error .jsonError
  | _ => .error .typeError

/-- `json.loads(result['content']['orderResult'])` (line 302). -/
def loadOrderResult (parse : String → Option JValue) (result : JValue) :
    Except PyErr JValue := do
  let content ← pyIndex result "content"
  let ordv ← pyIndex content "orderResult"
  pyLoads parse ordv

/-- The loop `for cw in cws: if "w" in cw: segments.append(cw["w"])`
(lines 317–319); also the identical word loop of the `sentences` branch
(lines 324–326). -/
def cwLoop : List JValue → Except PyErr (List JValue)
  | [] => .ok []
  | cw :: rest => do
    let hasW ← pyIn "w" cw
    if hasW then
      let w ← pyIndex cw "w"
      let tail ← cwLoop rest
      pure (w :: tail)
    else
      cwLoop rest

/-- The loop over `wss` (lines 315–319): `cws = ws.get("cw", [])` then the
inner `cw` loop. -/
def wsLoop : List JValue → Except PyErr (List JValue)
  | [] => .ok []
  | ws :: rest => do
    let cwsV ← pyGetD ws "cw" (.jarr [])
    let cws ← pyIter cwsV
    let here ← cwLoop cws
    let tail ← wsLoop rest
    pure (here ++ tail)

/-- The loop over `rts` (lines 313–319): `wss = rt.get("ws", [])` then the
`ws` loop. -/
def rtLoop : List JValue → Except PyErr (List JValue)
  | [] => .ok []
  | rt :: rest => do
    let wssV ← pyGetD rt "ws" (.jarr [])
    let wss ← pyIter wssV
    let here ← wsLoop wss
    let tail ← rtLoop rest
    pure (here ++ tail)

/-- The loop over `order_result["lattice"]` (lines 308–319):
`best = lattice.get("json_1best", {})`, `st = best.get("st", {})`,
`rts = st.get("rt", [])`, then the `rt` loop. -/
def latticeLoop : List JValue → Except PyErr (List JValue)
  | [] => .ok []
  | lat :: rest => do
    let best ← pyGetD lat "json_1best" (.jobj [])
    let st ← pyGetD best "st" (.jobj [])
    let rtsV ← pyGetD st "rt" (.jarr [])
    let rts ← pyIter rtsV
    let here ← rtLoop rts
    let tail ← latticeLoop rest
    pure (here ++ tail)

/-- The loop over `order_result["sentences"]` (lines 322–326):
`words = sentence.get("words", [])` then the word loop. -/
def sentencesLoop : List JValue → Except PyErr (List JValue)
  | [] => .ok []
  | sen :: rest => do
    let wordsV ← pyGetD sen "words" (.jarr [])
    let words ← pyIter wordsV
    let here ← cwLoop words
    let tail ← sentencesLoop rest
    pure (here ++ tail)

/-- `"".join(segments)` (line 331): concatenate with no separator; any
non-string element raises `TypeError`. -/
def joinStrs : List JValue → Except PyErr String
  | [] => .ok ""
  | .jstr s :: rest => do
    let t ← joinStrs rest
    pure (s ++ t)
  | _ :: _ => .error .typeError

/-- The `try` body of `extract_transcript_text` (lines 301–331). -/
def extract_transcript_body (parse : String → Option JValue) (result : JValue) :
    Except PyErr String := do
  let order_result ← loadOrderResult parse result
  let hasLat ← pyIn "lattice" order_result
  if hasLat then
    let latV ← pyIndex order_result "lattice"
    let lats ← pyIter latV
    let segments ← latticeLoop lats
    joinStrs segments
  else
    let hasSen ← pyIn "sentences" order_result
    if hasSen then
      let senV ← pyIndex order_result "sentences"
      let sens ← pyIter senV
      let segments ← sentencesLoop sens
      joinStrs segments
    else
      pure "无法解析转写结果"

/-- `LFASRClient.extract_transcript_text` (lines 299–334): the `try` body
with every escaping exception converted by the `except` handler
(lines 332–334) into the sentinel string `"提取文本内容失败"`. -/
def extract_transcript_text (parse : String → Option JValue) (result : JValue) :
    String :=
  match extract_transcript_body parse result with
  | .ok s => s
  | .error _ => "提取文本内容失败"

/-! ### Well-formed result documents and the declarative token walk -/

/-- Concatenation of a token list with no separators inserted, in order. -/
def concatAll : List String → String
  | [] => ""
  | s :: rest => s ++ concatAll rest

/-- A `cw` entry (also a `words` entry) carrying the token `w`. -/
def mkCw (w : String) : JValue := .jobj [("w", .jstr w)]

/-- A `ws` entry whose `cw` list carries the given tokens. -/
def mkWs (cws : List String) : JValue := .jobj [("cw", .jarr (cws.map mkCw))]

/-- An `rt` entry whose `ws` list carries the given token groups. -/
def mkRt (wss : List (List String)) : JValue := .jobj [("ws", .jarr (wss.map mkWs))]

/-- A `lattice` entry: `json_1best.st.rt` over the given token groups. -/
def mkLatticeEntry (rts : List (List (List String))) : JValue :=
  .jobj [("json_1best", .jobj [("st", .jobj [("rt", .jarr (rts.map mkRt))])])]

/-- A `lattice`-schema order-result document over nested token groups
(levels: lattice entries → rt entries → ws entries → cw tokens). -/
def mkLatticeDoc (lats : List (List (List (List String)))) : JValue :=
  .jobj [("lattice", .jarr (lats.map mkLatticeEntry))]

/-- A `sentences` entry whose `words` list carries the given tokens. -/
def mkSentence (words : List String) : JValue :=
  .jobj [("words", .jarr (words.map mkCw))]

/-- A `sentences`-schema order-result document. -/
def mkSentencesDoc (sens : List (List String)) : JValue :=
  .jobj [("sentences", .jarr (sens.map mkSentence))]

/-- A polling result whose `content.orderResult` is the raw string `raw`. -/
def wrapResult (raw : String) : JValue :=
  .jobj [("content", .jobj [("orderResult", .jstr raw)])]

/-- A parse oracle under which every raw string parses to `doc`. -/
def oracleFor (doc : JValue) : String → Option JValue := fun _ => some doc

@[simp]
theorem exceptOkBind {ε α β : Type} (a : α) (f : α → Except ε β) :
    (Except.ok a >>= f : Except ε β) = f a := rfl

@[simp]
theorem exceptErrorBind {ε α β : Type} (e : ε) (f : α → Except ε β) :
    (Except.error e >>= f : Except ε β) = .error e := rfl

@[simp]
theorem exceptPureOk {ε α : Type} (a : α) :
    (pure a : Except ε α) = .ok a := rfl

theorem cwLoop_mk (ws : List String) :
    cwLoop (ws.map mkCw) = .ok (ws.map JValue.jstr) := by
  induction ws with
  | nil => rfl
  | cons w rest ih => simp [cwLoop, mkCw, pyIn, pyIndex, jlookup, ih]

theorem joinStrs_map (ws : List String) :
    joinStrs (ws.map JValue.jstr) = .ok (concatAll ws) := by
  induction ws with
  | nil => rfl
  | cons w rest ih => simp [joinStrs, concatAll, ih]

theorem wsLoop_mk (l : List (List String)) :
    wsLoop (l.map mkWs) = .ok (l.flatten.map JValue.jstr) := by
  induction l with
  | nil => rfl
  | cons cws rest ih =>
    simp [wsLoop, mkWs, pyGetD, jlookup, pyIter, cwLoop_mk, ih]

theorem rtLoop_mk (l : List (List (List String))) :
    rtLoop (l.map mkRt) = .ok (l.flatten.flatten.map JValue.jstr) := by
  induction l with
  | nil => rfl
  | cons wss rest ih =>
    simp [rtLoop, mkRt, pyGetD, jlookup, pyIter, wsLoop_mk, ih]

theorem latticeLoop_mk (l : List (List (List (List String)))) :
    latticeLoop (l.map mkLatticeEntry)
      = .ok (l.flatten.flatten.flatten.map JValue.jstr) := by
  induction l with
  | nil => rfl
  | cons rts rest ih =>
    simp [latticeLoop, mkLatticeEntry, pyGetD, jlookup, pyIter, rtLoop_mk, ih]

theorem sentencesLoop_mk (l : List (List String)) :
    sentencesLoop (l.map mkSentence) = .ok (l.flatten.map JValue.jstr) := by
  induction l with
  | nil => rfl
  | cons words rest ih =>
    simp [sentencesLoop, mkSentence, pyGetD, jlookup, pyIter, cwLoop_mk, ih]

/-- **C4**: `extract_transcript_text` on a result whose embedded
`orderResult` document contains a `lattice` key returns the concatenation,
in traversal order and with no separators, of every `w` field reached by
walking `lattice[] → json_1best.st.rt[] → ws[] → cw[] → w`; on a document
with a `sentences` key it concatenates over `sentences[] → words[] → w`.
In particular lattice tokens `今`, `天`, `天气` yield `今天天气` and
sentence words `hello`, a space, `world` yield `hello world`. -/
theorem C4_extract_concatenates_tokens :
    (∀ (lats : List (List (List (List String)))) (raw : String),
        extract_transcript_text (oracleFor (mkLatticeDoc lats)) (wrapResult raw)
          = concatAll lats.flatten.flatten.flatten)
    ∧ (∀ (sens : List (List String)) (raw : String),
        extract_transcript_text (oracleFor (mkSentencesDoc sens)) (wrapResult raw)
          = concatAll sens.flatten)
    ∧ extract_transcript_text
        (oracleFor (mkLatticeDoc [[[["今", "天", "天气"]]]])) (wrapResult "raw")
        = "今天天气"
    ∧ extract_transcript_text
        (oracleFor (mkSentencesDoc [["hello", " ", "world"]])) (wrapResult "raw")
        = "hello world" := by
  refine ⟨fun lats raw => ?_, fun sens raw => ?_, ?_, ?_⟩
  · simp [extract_transcript_text, extract_transcript_body, loadOrderResult,
      wrapResult, oracleFor, pyIndex, jlookup, pyLoads, mkLatticeDoc, pyIn,
      pyIter, latticeLoop_mk, joinStrs_map, -List.map_flatten]
  · simp [extract_transcript_text, extract_transcript_body, loadOrderResult,
      wrapResult, oracleFor, pyIndex, jlookup, pyLoads, mkSentencesDoc, pyIn,
      pyIter, sentencesLoop_mk, joinStrs_map, -List.map_flatten]
  · rfl
  · rfl

/-- **C5**: `extract_transcript_text` is total — every escaping exception
of the `try` body is converted by the handler into the sentinel string
`"提取文本内容失败"`, a document matching neither the `lattice` nor the
`sentences` schema yields the sentinel string `"无法解析转写结果"`, and on
every input the function returns either the successfully extracted string
or the exception sentinel, never propagating an exception. -/
theorem C5_extract_total_and_sentinels :
    (∀ (parse : String → Option JValue) (result : JValue) (e : PyErr),
        extract_transcript_body parse result = .error e →
        extract_transcript_text parse result = "提取文本内容失败")
    ∧ (∀ (parse : String → Option JValue) (result doc : JValue),
        loadOrderResult parse result = .ok doc →
        pyIn "lattice" doc = .ok false →
        pyIn "sentences" doc = .ok false →
        extract_transcript_text parse result = "无法解析转写结果")
    ∧ (∀ (parse : String → Option JValue) (result : JValue),
        (∃ s, extract_transcript_body parse result = .ok s ∧
            extract_transcript_text parse result = s)
        ∨ extract_transcript_text parse result = "提取文本内容失败") := by
  refine ⟨fun parse result e h => ?_, fun parse result doc h1 h2 h3 => ?_,
    fun parse result => ?_⟩
  · simp [extract_transcript_text, h]
  · simp [extract_transcript_text, extract_transcript_body, h1, h2, h3]
  · cases h : extract_transcript_body parse result with
    | ok s => exact Or.inl ⟨s, rfl, by simp [extract_transcript_text, h]⟩
    | error e => exact Or.inr (by simp [extract_transcript_text, h])

/-- Witness for C5 at concrete inputs: a parse oracle yielding the empty
object (neither schema) hits the schema sentinel, and an oracle on which
parsing fails hits the exception sentinel. -/
theorem C5_extract_total_and_sentinels_witness :
    extract_transcript_text (fun _ => some (.jobj [])) (wrapResult "x")
      = "无法解析转写结果"
    ∧ extract_transcript_text (fun _ => none) (wrapResult "x")
      = "提取文本内容失败" :=
  ⟨C5_extract_total_and_sentinels.2.1 (fun _ => some (.jobj [])) (wrapResult "x")
      (.jobj []) rfl rfl rfl,
   C5_extract_total_and_sentinels.1 (fun _ => none) (wrapResult "x")
      .jsonError rfl⟩

/-! ### Concrete fixtures for the polling claims -/

/-- Concrete stand-ins for the abstracted hash primitives, used only to
evaluate the client model on closed inputs. -/
def prims0 : HashPrims :=
  { md5Hex := fun _ => "", hmacSha1 := fun _ _ => [], b64 := fun _ => "sig" }

/-- A well-formed `getResult` body: `code` 0 and order status `n`. -/
def statusBody (n : Int) : JValue :=
  .jobj [ ("code", .jnum 0)
        , ("content", .jobj [("orderInfo", .jobj [("status", .jnum n)])]) ]

/-- A 200 response whose body reports order status `n`. -/
def respWithStatus (n : Int) : HttpResp :=
  { status_code := 200, body := .parsed (statusBody n) }

/-- A 200 response whose body fails to parse as JSON. -/
def respMalformed200 : HttpResp :=
  { status_code := 200, body := .malformed }

/-- An HTTP 500 response. -/
def respHttp500 : HttpResp :=
  { status_code := 500, body := .malformed }

/-- **C1** (evidence of the code bug): with `max_retry = 3` and every
`getResult` response reporting terminal failure status 5, the `try` body
does raise the internal `Exception("转写失败")` (first conjunct), but that
exception is caught by the loop's own blanket `except Exception` handler
at line 243, which increments `attempts`, sleeps and re-queries: the run
issues three status queries (three entries in the issued-request list),
exhausts the attempt budget, and ends in `TimeoutError` (line 249) —
not in an immediate transcription-failure error on the first attempt as
the claim (and the evident intent of the status-5 branch) states. -/
theorem C1_status5_is_retried_not_terminal :
    pollTryBody (respWithStatus 5) = .raised (.exnMsg "转写失败")
    ∧ get_transcription_result prims0 "app" "sec" "ord" "transfer,predict" "111"
        (fun _ => respWithStatus 5) 3 10
      = some (.timeoutErr, 3,
          [ { appId := "app", signa := "sig", ts := "111"
            , orderId := "ord", resultType := "transfer,predict" }
          , { appId := "app", signa := "sig", ts := "111"
            , orderId := "ord", resultType := "transfer,predict" }
          , { appId := "app", signa := "sig", ts := "111"
            , orderId := "ord", resultType := "transfer,predict" } ]) :=
  ⟨rfl, rfl⟩

/-- Every request parameter set issued by a `pollLoop` run is either one
of the already-accumulated ones or the fixed `params` built before the
loop. -/
theorem pollLoop_issued_mem (params : PollQuery) (resp : Nat → HttpResp)
    (max_retry : Nat) :
    ∀ (fuel attempts : Nat) (acc : List PollQuery) (out : PollResult)
      (a : Nat) (qs : List PollQuery),
      pollLoop params resp max_retry fuel attempts acc = some (out, a, qs) →
      ∀ q ∈ qs, q ∈ acc ∨ q = params := by
  intro fuel
  induction fuel with
  | zero =>
    intro attempts acc out a qs h
    simp [pollLoop] at h
  | succ n ih =>
    intro attempts acc out a qs h q hq
    rw [pollLoop] at h
    by_cases hlt : attempts < max_retry
    · rw [if_pos hlt] at h
      cases htb : pollTryBody (resp acc.length) with
      | ret v =>
        rw [htb] at h
        injection h with h1
        cases h1
        rcases List.mem_append.mp hq with hmem | hmem
        · exact Or.inl hmem
        · exact Or.inr (List.mem_singleton.mp hmem)
      | noCount =>
        rw [htb] at h
        rcases ih attempts (acc ++ [params]) out a qs h q hq with hmem | hmem
        · rcases List.mem_append.mp hmem with hmem2 | hmem2
          · exact Or.inl hmem2
          · exact Or.inr (List.mem_singleton.mp hmem2)
        · exact Or.inr hmem
      | count =>
        rw [htb] at h
        rcases ih (attempts + 1) (acc ++ [params]) out a qs h q hq with hmem | hmem
        · rcases List.mem_append.mp hmem with hmem2 | hmem2
          · exact Or.inl hmem2
          · exact Or.inr (List.mem_singleton.mp hmem2)
        · exact Or.inr hmem
      | raised e =>
        rw [htb] at h
        rcases ih (attempts + 1) (acc ++ [params]) out a qs h q hq with hmem | hmem
        · rcases List.mem_append.mp hmem with hmem2 | hmem2
          · exact Or.inl hmem2
          · exact Or.inr (List.mem_singleton.mp hmem2)
        · exact Or.inr hmem
    · rw [if_neg hlt] at h
      injection h with h1
      cases h1
      exact Or.inl hq

/-- A scripted status sequence `[1, 4]`: the first query sees a
non-terminal status and the second sees completion, so the run issues two
poll requests. -/
def traceStatus1Then4 : Nat → HttpResp :=
  fun q => if q = 0 then respWithStatus 1 else respWithStatus 4

/-- **C2 counterexample**: the query URL is built once before the polling
loop (line 195), so consecutive poll attempts carry the identical
timestamp/signature pair.  In this two-query run both issued requests are
the very same parameter set (and the issued list is not pairwise
distinct), refuting "no two poll attempts carry the same
timestamp/signature pair" and "re-signed on each attempt". -/
theorem C2_counterexample_same_pair_across_attempts :
    get_transcription_result prims0 "app" "sec" "ord" "t" "222"
        traceStatus1Then4 3 10
      = some (.ok (statusBody 4), 0,
          [ { appId := "app", signa := "sig", ts := "222"
            , orderId := "ord", resultType := "t" }
          , { appId := "app", signa := "sig", ts := "222"
            , orderId := "ord", resultType := "t" } ])
    ∧ ¬ List.Pairwise Ne
        [ ({ appId := "app", signa := "sig", ts := "222"
           , orderId := "ord", resultType := "t" } : PollQuery)
        , { appId := "app", signa := "sig", ts := "222"
          , orderId := "ord", resultType := "t" } ] :=
  ⟨rfl, by simp⟩

/-- **C2 (amended)**: `get_transcription_result` regenerates the
timestamp/signature once, at the start of the polling phase (line 179) —
so, provided the sampled timestamp differs from the upload phase's, no
poll request carries the upload-phase timestamp — but the query URL is
then built once (line 195): every poll attempt within the call carries
that same freshly generated timestamp/signature pair, not a per-attempt
fresh one. -/
theorem C2_poll_requests_share_one_fresh_signature
    (p : HashPrims) (appid secret_key order_id result_type now : String)
    (resp : Nat → HttpResp) (max_retry fuel : Nat)
    (out : PollResult) (a : Nat) (qs : List PollQuery)
    (h : get_transcription_result p appid secret_key order_id result_type now
        resp max_retry fuel = some (out, a, qs)) :
    (∀ q ∈ qs, q.ts = now ∧ q.signa = generate_signa p appid secret_key now)
    ∧ (∀ q ∈ qs, ∀ r ∈ qs, q = r)
    ∧ (∀ ts_upload : String, ts_upload ≠ now → ∀ q ∈ qs, q.ts ≠ ts_upload) := by
  have hmem : ∀ q ∈ qs,
      q = ({ appId := appid, signa := generate_signa p appid secret_key now
           , ts := now, orderId := order_id, resultType := result_type } : PollQuery) := by
    intro q hq
    rcases pollLoop_issued_mem _ resp max_retry fuel 0 [] out a qs h q hq with hc | hc
    · simp at hc
    · exact hc
  refine ⟨fun q hq => ?_, fun q hq r hr => ?_, fun ts_upload hts q hq => ?_⟩
  · rw [hmem q hq]
    exact ⟨rfl, rfl⟩
  · rw [hmem q hq, hmem r hr]
  · rw [hmem q hq]
    exact fun hcontra => hts hcontra.symm

/-- Witness for the amended C2 at a concrete run: both issued requests of
the scripted `[1, 4]` run carry the poll-phase timestamp `"333"` and the
signature generated from it. -/
theorem C2_poll_requests_share_one_fresh_signature_witness :
    ({ appId := "app", signa := "sig", ts := "333"
     , orderId := "ord", resultType := "t" } : PollQuery).ts = "333"
    ∧ ({ appId := "app", signa := "sig", ts := "333"
       , orderId := "ord", resultType := "t" } : PollQuery).signa
        = generate_signa prims0 "app" "sec" "333" := by
  have h := C2_poll_requests_share_one_fresh_signature prims0 "app" "sec" "ord"
    "t" "333" traceStatus1Then4 3 10 (.ok (statusBody 4)) 0
    [ { appId := "app", signa := "sig", ts := "333"
      , orderId := "ord", resultType := "t" }
    , { appId := "app", signa := "sig", ts := "333"
      , orderId := "ord", resultType := "t" } ] rfl
  exact h.1 _ (by simp)

/-! ### Attempt counting (claims C3 and C10) -/

/-- Whether one iteration of the polling loop on response `r` increments
`attempts` in the code: the explicit `attempts += 1` branches plus the
`except` handler (which also increments). -/
def countsAttempt (r : HttpResp) : Bool :=
  match pollTryBody r with
  | .count => true
  | .raised _ => true
  | _ => false

/-- The increment conditions enumerated by claim C3, transcribed from the
claim's words: a transport failure (non-200 HTTP status), a non-zero
application error code, or an unrecognized status value (a status outside
0, 1, 3, 4, 5). -/
def claimedCountable (r : HttpResp) : Bool :=
  (r.status_code ≠ 200)
  || (match r.body with
      | .malformed => false
      | .parsed result =>
        match result with
        | .jobj kvs =>
          match jlookup kvs "code" with
          | none => false
          | some c =>
            if pyEqNum c 0 then
              match statusChain result with
              | .error _ => false
              | .ok st =>
                !(pyEqNum st 0 || pyEqNum st 1 || pyEqNum st 3
                  || pyEqNum st 4 || pyEqNum st 5)
            else true
        | _ => false)

/-- The conditions under which the code actually increments the counter:
the claim's three conditions extended with every exception path — an
unparseable 200 body, a non-dict body, a missing `code` field, missing or
ill-typed `content`/`orderInfo`/`status` fields, and the status-5
internal failure raise.  Only a clean status 4 (return) and clean
statuses 0, 1, 3 (sleep without counting) do not count. -/
def failCountable (r : HttpResp) : Bool :=
  (r.status_code ≠ 200)
  || (match r.body with
      | .malformed => true
      | .parsed result =>
        match result with
        | .jobj kvs =>
          match jlookup kvs "code" with
          | none => true
          | some c =>
            if pyEqNum c 0 then
              match statusChain result with
              | .error _ => true
              | .ok st =>
                !(pyEqNum st 4)
                  && !(pyEqNum st 0 || pyEqNum st 1 || pyEqNum st 3)
            else true
        | _ => true)

/-- A JSON value is numerically equal to at most one integer. -/
theorem pyEqNum_unique {v : JValue} {a b : Int}
    (ha : pyEqNum v a = true) (hb : pyEqNum v b = true) : a = b := by
  cases v <;> simp [pyEqNum] at ha hb <;> omega

/-- The code's increment behaviour coincides with `failCountable`. -/
theorem countsAttempt_eq_failCountable (r : HttpResp) :
    countsAttempt r = failCountable r := by
  rcases r with ⟨sc, body⟩
  by_cases hsc : sc = 200
  · subst hsc
    cases body with
    | malformed => rfl
    | parsed result =>
      cases result with
      | jobj kvs =>
        simp only [countsAttempt, pollTryBody, failCountable, pyGetOpt]
        cases hcode : jlookup kvs "code" with
        | none => simp
        | some c =>
          cases hc0 : pyEqNum c 0 with
          | true =>
            cases hst : statusChain (.jobj kvs) with
            | error e => simp [hc0, hst]
            | ok st =>
              cases h4 : pyEqNum st 4 with
              | true => simp [hc0, hst, h4]
              | false =>
                cases hnt : (pyEqNum st 0 || pyEqNum st 1 || pyEqNum st 3) with
                | true =>
                  have := Bool.or_eq_true_iff.mp hnt
                  rcases this with h013 | h3
                  · rcases Bool.or_eq_true_iff.mp h013 with h0 | h1
                    · simp [hc0, hst, h4, h0]
                    · simp [hc0, hst, h4, h1]
                  · simp [hc0, hst, h4, h3]
                | false =>
                  have hsplit := hnt
                  simp only [Bool.or_eq_false_iff] at hsplit
                  cases h5 : pyEqNum st 5 with
                  | true =>
                    simp [hc0, hst, h4, h5, hsplit.1.1, hsplit.1.2, hsplit.2]
                  | false =>
                    simp [hc0, hst, h4, h5, hsplit.1.1, hsplit.1.2, hsplit.2]
          | false =>
            cases hmsg : errorCodeMsg c with
            | ok m => simp [hc0, hmsg]
            | error e => simp [hc0, hmsg]
      | jnull => rfl
      | jbool b => rfl
      | jnum n => rfl
      | jstr s => rfl
      | jarr xs => rfl
  · have h200 : sc ≠ 200 := hsc
    cases body <;> simp [countsAttempt, pollTryBody, failCountable, h200]

/-- **C3 counterexample**: an attempt that receives HTTP 200 with an
unparseable body meets none of the claim's enumerated increment
conditions (no transport failure, no application code, no status value),
yet the code increments the counter — and with `max_retry = 2` a run of
such responses reaches `TimeoutError` with the counter at 2 even though,
by the claim, the counter should never have been incremented. -/
theorem C3_counterexample_malformed_body_counted :
    claimedCountable respMalformed200 = false
    ∧ countsAttempt respMalformed200 = true
    ∧ get_transcription_result prims0 "app" "sec" "ord" "t" "444"
        (fun _ => respMalformed200) 2 10
      = some (.timeoutErr, 2,
          [ { appId := "app", signa := "sig", ts := "444"
            , orderId := "ord", resultType := "t" }
          , { appId := "app", signa := "sig", ts := "444"
            , orderId := "ord", resultType := "t" } ]) :=
  ⟨rfl, rfl, rfl⟩

/-- A `pollLoop` run that exits with `TimeoutError` does so with
`attempts` exactly `max_retry` (the counter starts at or below
`max_retry`, each increment is by one under the `attempts < max_retry`
guard, and the loop exits as soon as the guard fails). -/
theorem pollLoop_timeout_attempts (params : PollQuery) (resp : Nat → HttpResp)
    (max_retry : Nat) :
    ∀ (fuel attempts : Nat) (acc : List PollQuery) (a : Nat)
      (qs : List PollQuery),
      attempts ≤ max_retry →
      pollLoop params resp max_retry fuel attempts acc
        = some (.timeoutErr, a, qs) →
      a = max_retry := by
  intro fuel
  induction fuel with
  | zero =>
    intro attempts acc a qs hle h
    simp [pollLoop] at h
  | succ n ih =>
    intro attempts acc a qs hle h
    rw [pollLoop] at h
    by_cases hlt : attempts < max_retry
    · rw [if_pos hlt] at h
      cases htb : pollTryBody (resp acc.length) with
      | ret v =>
        rw [htb] at h
        injection h with h1
        have hfst := congrArg Prod.fst h1
        simp at hfst
      | noCount =>
        rw [htb] at h
        exact ih attempts (acc ++ [params]) a qs hle h
      | count =>
        rw [htb] at h
        exact ih (attempts + 1) (acc ++ [params]) a qs hlt h
      | raised e =>
        rw [htb] at h
        exact ih (attempts + 1) (acc ++ [params]) a qs hlt h
    · rw [if_neg hlt] at h
      injection h with h1
      have ha := congrArg (fun pr => pr.2.1) h1
      simp at ha
      omega

/-- **C3 (amended)**: the attempt counter is incremented exactly when an
iteration fails — a transport failure (non-200 status), a non-zero
application code, an unrecognized status value, or any exception while
handling the response (unparseable 200 body, missing or ill-typed
`code`/`content`/`orderInfo`/`status` fields, and the status-5 internal
failure raise) — and is never incremented for a clean response with code
0 and status 0, 1 or 3; when the loop exits with `TimeoutError`, the
counter equals `max_retry` exactly. -/
theorem C3_attempt_counting_amended :
    (∀ r : HttpResp, countsAttempt r = failCountable r)
    ∧ (∀ (result status c : JValue),
        pyGetOpt result "code" = .ok (some c) →
        pyEqNum c 0 = true →
        statusChain result = .ok status →
        (pyEqNum status 0 || pyEqNum status 1 || pyEqNum status 3) = true →
        countsAttempt { status_code := 200, body := .parsed result } = false)
    ∧ (∀ (p : HashPrims) (appid secret_key order_id result_type now : String)
        (resp : Nat → HttpResp) (max_retry fuel a : Nat)
        (qs : List PollQuery),
        get_transcription_result p appid secret_key order_id result_type now
            resp max_retry fuel = some (.timeoutErr, a, qs) →
        a = max_retry) := by
  refine ⟨countsAttempt_eq_failCountable, ?_, ?_⟩
  · intro result status c hget hc0 hst hnt
    cases result with
    | jobj kvs =>
      simp only [pyGetOpt, Except.ok.injEq] at hget
      have h4 : pyEqNum status 4 = false := by
        by_contra hcon
        simp only [Bool.not_eq_false] at hcon
        rcases Bool.or_eq_true_iff.mp hnt with h013 | h3
        · rcases Bool.or_eq_true_iff.mp h013 with h0 | h1
          · exact absurd (pyEqNum_unique hcon h0) (by omega)
          · exact absurd (pyEqNum_unique hcon h1) (by omega)
        · exact absurd (pyEqNum_unique hcon h3) (by omega)
      simp [countsAttempt, pollTryBody, pyGetOpt, hget, hc0, hst, h4, hnt]
    | jnull => simp [pyGetOpt] at hget
    | jbool b => simp [pyGetOpt] at hget
    | jnum n => simp [pyGetOpt] at hget
    | jstr s => simp [pyGetOpt] at hget
    | jarr xs => simp [pyGetOpt] at hget
  · intro p appid secret_key order_id result_type now resp max_retry fuel a qs h
    exact pollLoop_timeout_attempts _ resp max_retry fuel 0 [] a qs
      (Nat.zero_le _) h

/-- Witness for the amended C3: a clean status-1 response does not count,
a transport failure does, and the all-HTTP-500 run with `max_retry = 2`
exits with the counter exactly at 2. -/
theorem C3_attempt_counting_amended_witness :
    countsAttempt { status_code := 200, body := .parsed (statusBody 1) } = false
    ∧ countsAttempt respHttp500 = failCountable respHttp500
    ∧ (2 : Nat) = 2 :=
  ⟨C3_attempt_counting_amended.2.1 (statusBody 1) (.jnum 1) (.jnum 0)
      rfl rfl rfl rfl,
   C3_attempt_counting_amended.1 respHttp500,
   C3_attempt_counting_amended.2.2 prims0 "app" "sec" "ord" "t" "555"
      (fun _ => respHttp500) 2 10 2
      [ { appId := "app", signa := "sig", ts := "555"
        , orderId := "ord", resultType := "t" }
      , { appId := "app", signa := "sig", ts := "555"
        , orderId := "ord", resultType := "t" } ] rfl⟩

/-- The response shape considered by claim C10: HTTP status 200, with a
body that either fails to parse as JSON or parses (with application code
0) but whose `content`/`orderInfo`/`status` chain is missing or
ill-typed. -/
def badPollBody (r : HttpResp) : Bool :=
  (r.status_code = 200)
  && (match r.body with
      | .malformed => true
      | .parsed result =>
        match result with
        | .jobj kvs =>
          (match jlookup kvs "code" with
           | some c => pyEqNum c 0
           | none => false)
          && (match statusChain result with
              | .error _ => true
              | .ok _ => false)
        | _ => false)

/-- A C10-shaped response makes the `try` body raise (a
`json.JSONDecodeError` or a `KeyError`/`TypeError` from the field
chain), landing in the `except` handler. -/
theorem badPollBody_raises (r : HttpResp) (h : badPollBody r = true) :
    ∃ e, pollTryBody r = .raised e := by
  rcases r with ⟨sc, body⟩
  obtain ⟨hsc, hbody⟩ := Bool.and_eq_true_iff.mp h
  have hsc200 : sc = 200 := by simpa using hsc
  subst hsc200
  cases body with
  | malformed => exact ⟨.jsonError, rfl⟩
  | parsed result =>
    cases result with
    | jobj kvs =>
      obtain ⟨hcode, hst⟩ := Bool.and_eq_true_iff.mp hbody
      cases hc : jlookup kvs "code" with
      | none =>
        rw [hc] at hcode
        exact Bool.noConfusion hcode
      | some c =>
        rw [hc] at hcode
        cases hstc : statusChain (.jobj kvs) with
        | ok st =>
          rw [hstc] at hst
          exact Bool.noConfusion hst
        | error e =>
          have hcode0 : pyEqNum c 0 = true := by simpa using hcode
          exact ⟨e, by simp [pollTryBody, pyGetOpt, hc, hcode0, hstc]⟩
    | jnull => exact Bool.noConfusion hbody
    | jbool b => exact Bool.noConfusion hbody
    | jnum n => exact Bool.noConfusion hbody
    | jstr s => exact Bool.noConfusion hbody
    | jarr xs => exact Bool.noConfusion hbody

/-- When every response makes the iteration count a failure, the loop
counts up to `max_retry` and exits with `TimeoutError`, having issued one
request per counted attempt. -/
theorem pollLoop_allFail_times_out (params : PollQuery) (resp : Nat → HttpResp)
    (max_retry : Nat) (hc : ∀ q, countsAttempt (resp q) = true) :
    ∀ (fuel attempts : Nat) (acc : List PollQuery),
      attempts ≤ max_retry → max_retry - attempts < fuel →
      ∃ qs, pollLoop params resp max_retry fuel attempts acc
          = some (.timeoutErr, max_retry, qs)
        ∧ qs.length = acc.length + (max_retry - attempts) := by
  intro fuel
  induction fuel with
  | zero =>
    intro attempts acc hle hf
    omega
  | succ n ih =>
    intro attempts acc hle hf
    rw [pollLoop]
    by_cases hlt : attempts < max_retry
    · rw [if_pos hlt]
      have hcount := hc acc.length
      unfold countsAttempt at hcount
      cases htb : pollTryBody (resp acc.length) with
      | ret v =>
        rw [htb] at hcount
        exact Bool.noConfusion hcount
      | noCount =>
        rw [htb] at hcount
        exact Bool.noConfusion hcount
      | count =>
        obtain ⟨qs, hqs, hlen⟩ := ih (attempts + 1) (acc ++ [params]) hlt (by omega)
        refine ⟨qs, hqs, ?_⟩
        simp only [List.length_append, List.length_singleton] at hlen
        omega
      | raised e =>
        obtain ⟨qs, hqs, hlen⟩ := ih (attempts + 1) (acc ++ [params]) hlt (by omega)
        refine ⟨qs, hqs, ?_⟩
        simp only [List.length_append, List.length_singleton] at hlen
        omega
    · rw [if_neg hlt]
      have heq : attempts = max_retry := by omega
      subst heq
      exact ⟨acc, rfl, by omega⟩

/-- **C10**: when every poll response arrives with HTTP 200 but a body
that is unparseable or lacks the `content`/`orderInfo`/`status` fields,
each attempt raises inside the `try` body, is counted and retried, and
the call ends in `TimeoutError` with exactly `max_retry` issued requests.
The polling phase has no malformed-response terminal outcome at all
(`PollResult` is either the returned result or `timeoutErr`), so such
runs can never surface as a malformed-response error. -/
theorem C10_bad_200_bodies_time_out
    (p : HashPrims) (appid secret_key order_id result_type now : String)
    (resp : Nat → HttpResp) (max_retry fuel : Nat)
    (hbad : ∀ q, badPollBody (resp q) = true)
    (hfuel : max_retry < fuel) :
    ∃ qs, get_transcription_result p appid secret_key order_id result_type now
        resp max_retry fuel = some (.timeoutErr, max_retry, qs)
      ∧ qs.length = max_retry := by
  have hc : ∀ q, countsAttempt (resp q) = true := by
    intro q
    obtain ⟨e, he⟩ := badPollBody_raises (resp q) (hbad q)
    unfold countsAttempt
    rw [he]
  obtain ⟨qs, hqs, hlen⟩ := pollLoop_allFail_times_out
    { appId := appid, signa := generate_signa p appid secret_key now, ts := now
    , orderId := order_id, resultType := result_type } resp max_retry hc fuel 0 []
    (Nat.zero_le _) (by omega)
  exact ⟨qs, hqs, by simpa using hlen⟩

/-- Witness for C10: two consecutive 200-but-unparseable responses with
`max_retry = 2` drive the run to `TimeoutError` after two issued
queries. -/
theorem C10_bad_200_bodies_time_out_witness :
    ∃ qs, get_transcription_result prims0 "app" "sec" "ord" "t" "666"
        (fun _ => respMalformed200) 2 5 = some (.timeoutErr, 2, qs)
      ∧ qs.length = 2 :=
  C10_bad_200_bodies_time_out prims0 "app" "sec" "ord" "t" "666"
    (fun _ => respMalformed200) 2 5 (fun _ => rfl) (by omega)

/-! ### Upload response handling (claim C6), signing (C7), duration (C8),
error-code table (C9) -/

/-- A successful upload response body carrying `orderId` `abc123`. -/
def uploadOkBody : JValue :=
  .jobj [ ("code", .jnum 0)
        , ("content", .jobj [("orderId", .jstr "abc123")]) ]

/-- **C6 counterexample**: on a 200 response whose parsed body is
`code 0` with `content.orderId` `abc123`, `upload_file` returns the full
parsed response object (line 162: `return result`), which is not the
order-identifier string `abc123` — refuting "on success it returns the
order identifier from the response body". -/
theorem C6_counterexample_success_returns_full_body :
    upload_file { status_code := 200, body := .parsed uploadOkBody }
      = .ok uploadOkBody
    ∧ UploadOutcome.ok uploadOkBody ≠ UploadOutcome.ok (.jstr "abc123") := by
  refine ⟨rfl, fun h => ?_⟩
  injection h with h1
  exact JValue.noConfusion h1

/-- **C6 (amended)**: `upload_file` fails with a distinct error kind for
each response-level failure — a transport error carrying the HTTP status
when the status is not 2xx (the code's check is `!= 200`, which every
non-2xx status satisfies), a malformed-response error when the 200 body is
unparseable, and an application error carrying the code and its
table-resolved description when the parsed body's `code` is non-zero —
and on success it returns the full parsed response body, from which the
caller reads the order identifier at `content.orderId`. -/
theorem C6_upload_error_kinds_amended :
    (∀ r : HttpResp, ¬ (200 ≤ r.status_code ∧ r.status_code < 300) →
        upload_file r = .transportErr r.status_code)
    ∧ upload_file { status_code := 200, body := .malformed } = .malformedResp
    ∧ (∀ (kvs : List (String × JValue)) (n : Int), n ≠ 0 →
        jlookup kvs "code" = some (.jnum n) →
        upload_file { status_code := 200, body := .parsed (.jobj kvs) }
          = .apiErr (.jnum n) (errorCodeLookup n))
    ∧ (∀ (kvs : List (String × JValue)) (oid : JValue),
        jlookup kvs "code" = some (.jnum 0) →
        (do
            let ct ← pyIndex (.jobj kvs) "content"
            pyIndex ct "orderId" : Except PyErr JValue) = .ok oid →
        upload_file { status_code := 200, body := .parsed (.jobj kvs) }
          = .ok (.jobj kvs)) := by
  refine ⟨fun r hr => ?_, rfl, fun kvs n hn hcode => ?_, fun kvs oid hcode hoid => ?_⟩
  · have hne : r.status_code ≠ 200 := by omega
    simp [upload_file, hne]
  · simp [upload_file, pyGetOpt, hcode, pyEqNum, errorCodeMsg, hn]
  · simp [upload_file, pyGetOpt, hcode, pyEqNum, hoid]

/-- Witness for the amended C6 at concrete responses: HTTP 404 is a
transport error, application code 10005 resolves through the table, and
the well-formed body is returned whole. -/
theorem C6_upload_error_kinds_amended_witness :
    upload_file { status_code := 404, body := .malformed } = .transportErr 404
    ∧ upload_file { status_code := 200
                  , body := .parsed (.jobj [("code", .jnum 10005)]) }
        = .apiErr (.jnum 10005) "参数无效"
    ∧ upload_file { status_code := 200, body := .parsed uploadOkBody }
        = .ok uploadOkBody :=
  ⟨C6_upload_error_kinds_amended.1 { status_code := 404, body := .malformed }
      (by decide),
   C6_upload_error_kinds_amended.2.2.1 [("code", .jnum 10005)] 10005
      (by omega) rfl,
   C6_upload_error_kinds_amended.2.2.2
      [ ("code", .jnum 0)
      , ("content", .jobj [("orderId", .jstr "abc123")]) ]
      (.jstr "abc123") rfl rfl⟩

/-- **C7**: `_generate_signa` computes
`base64(HMAC-SHA1(key = secretKey, message = hexMD5(appId + timestamp)))`
— the embedding of the code coincides with the spec's formula for every
choice of the library primitives — and it is deterministic and pure: it
is a plain function of `(appId, secretKey, timestamp)`, so identical
inputs always yield identical output, and `update_timestamp` produces
exactly the sampled timestamp paired with that signature. -/
theorem C7_generate_signa_matches_spec :
    (∀ (p : HashPrims) (appid secret_key ts : String),
        generate_signa p appid secret_key ts = signSpec p appid secret_key ts)
    ∧ (∀ (p : HashPrims) (appid secret_key ts : String),
        generate_signa p appid secret_key ts
          = generate_signa p appid secret_key ts)
    ∧ (∀ (p : HashPrims) (appid secret_key now : String),
        update_timestamp p appid secret_key now
          = { ts := now, signa := generate_signa p appid secret_key now }) :=
  ⟨fun _ _ _ _ => rfl, fun _ _ _ _ => rfl, fun _ _ _ _ => rfl⟩

/-- **C8**: the estimated duration is the floor of the file size divided
by 32000 (division modelled exactly; `int(...)` truncation of a
non-negative quotient is the floor): 0 bytes give duration 0 and 32000
bytes give duration 1 (rendered as the strings the code returns). -/
theorem C8_duration_is_floor_div_32000 :
    (∀ sizeBytes : Nat,
        estimateDurationVal sizeBytes = Nat.floor ((sizeBytes : ℚ) / 32000))
    ∧ estimateDurationVal 0 = 0
    ∧ estimateDurationVal 32000 = 1
    ∧ estimate_duration 0 = "0"
    ∧ estimate_duration 32000 = "1" := by
  refine ⟨fun n => ?_, rfl, rfl, rfl, rfl⟩
  have h := Nat.floor_div_nat (α := ℚ) (n : ℚ) 32000
  rw [Nat.floor_natCast] at h
  rw [estimateDurationVal]
  simpa using h.symm

/-- Keys absent from an `(Int × String)` table make the lookup miss. -/
theorem intLookup_eq_none (l : List (Int × String)) (c : Int)
    (h : ∀ p ∈ l, p.1 ≠ c) : intLookup l c = none := by
  induction l with
  | nil => rfl
  | cons hd tl ih =>
    cases hd with
    | mk k v =>
      rw [intLookup, if_neg (h (k, v) (List.mem_cons_self _ _))]
      exact ih fun p hp => h p (List.mem_cons_of_mem _ hp)

/-- **C9**: the `ApiError` description is resolved through the fixed
`ERROR_CODES` table: code 10006 resolves to the table's
invalid-signature description `无效的签名`, any code not in the table
(99999, or any integer absent from the table's keys) resolves to the
generic unknown-error description `未知错误`, and `upload_file` attaches
the table-resolved description to the error it raises. -/
theorem C9_error_code_table :
    errorCodeLookup 10006 = "无效的签名"
    ∧ errorCodeLookup 99999 = "未知错误"
    ∧ (∀ c : Int, (∀ p ∈ ERROR_CODES, p.1 ≠ c) →
        errorCodeLookup c = "未知错误")
    ∧ (∀ kvs : List (String × JValue),
        jlookup kvs "code" = some (.jnum 10006) →
        upload_file { status_code := 200, body := .parsed (.jobj kvs) }
          = .apiErr (.jnum 10006) "无效的签名") := by
  refine ⟨rfl, rfl, fun c hc => ?_, fun kvs hcode => ?_⟩
  · rw [errorCodeLookup, intLookup_eq_none ERROR_CODES c hc]
    rfl
  · simp [upload_file, pyGetOpt, hcode, pyEqNum, errorCodeMsg, errorCodeLookup,
      intLookup, ERROR_CODES]

/-- Witness for C9: the unmapped code 12345 resolves to the generic
description, and a concrete code-10006 upload response carries the
invalid-signature description. -/
theorem C9_error_code_table_witness :
    errorCodeLookup 12345 = "未知错误"
    ∧ upload_file { status_code := 200
                  , body := .parsed (.jobj [("code", .jnum 10006)]) }
        = .apiErr (.jnum 10006) "无效的签名" :=
  ⟨C9_error_code_table.2.2.1 12345 (by decide),
   C9_error_code_table.2.2.2 [("code", .jnum 10006)] rfl⟩

end Ifasr
